import Mathlib

/-!
Verification of the text-to-speech pipeline in `src/main.py`.

The program chains three stages per submission: validation of the raw text,
optional translation (with automatic source-language detection), and speech
synthesis. The external collaborators (the langdetect detector, the
GoogleTranslator provider and the gTTS synthesizer) are modelled as oracle
functions passed in as parameters; an oracle returning `none` / `Except.error`
models the Python call raising an exception.
-/

namespace TTS

/-- Models line 16 of `src/main.py`: `DetectorFactory.seed = 0`. The detection
library's randomness is captured by a seed parameter of the detector oracle,
and the program pins that seed to `0` at module load. -/
def DetectorFactory_seed : Nat := 0

/-- Models `detect_language(text)` (lines 125-131): calls `langdetect.detect`
under the pinned seed; any exception raised by the library is caught and
turned into `None`, modelled by the oracle returning `none`. -/
def detect_language (d : Nat → String → Option String) (text : String) :
    Option String :=
  d DetectorFactory_seed text

/-- The source-language resolution performed at the start of
`translate_text` (lines 137-144): when the caller selected the sentinel
`"auto"`, run detection and use the detected code when it is truthy
(Python `if detected_lang:` is false for `None` and for the empty string),
otherwise fall back to `"en"`; an explicit code passes through unchanged. -/
def resolveSource (d : Nat → String → Option String)
    (text source_lang : String) : String :=
  if source_lang = "auto" then
    match detect_language d text with
    | some l => if l = "" then "en" else l
    | none => "en"
  else source_lang

/-- The Chinese-variant exception table applied to the target code before the
provider call (lines 150-154): `"zh-cn" ↦ "zh-CN"`, `"zh-tw" ↦ "zh-TW"`,
everything else unchanged. -/
def normalizeTarget (t : String) : String :=
  if t = "zh-cn" then "zh-CN" else if t = "zh-tw" then "zh-TW" else t

/-- Result of `translate_text`: the Python function returns the triple
`(text, lang, error)`. The two extra fields instrument whether the external
translation provider was invoked and, when it was, with which
`(source, target, text)` arguments — they model the network call itself. -/
structure TransResult where
  text : Option String
  lang : Option String
  error : Option String
  providerCalled : Bool
  providerArgs : Option (String × String × String)
deriving DecidableEq

/-- Models `translate_text(text, source_lang, target_lang)` (lines 134-163).
`tr` is the `GoogleTranslator(...).translate` oracle: `Except.error e` models
the provider raising an exception with message `e`, which the function
catches and converts to `(None, None, str(e))`. -/
def translate_text (d : Nat → String → Option String)
    (tr : String → String → String → Except String String)
    (text source_lang target_lang : String) : TransResult :=
  let src := resolveSource d text source_lang
  -- Don't translate if source and target are the same
  if src = target_lang then
    ⟨some text, some src, none, false, none⟩
  else
    let tgt := normalizeTarget target_lang
    match tr src tgt text with
    | Except.ok translated => ⟨some translated, some src, none, true, some (src, tgt, text)⟩
    | Except.error e => ⟨none, none, some e, true, some (src, tgt, text)⟩

/-- Result of `convert_text_to_speech`: the triple
`(audio_data, file_size, error)`. The file size is `len(audio_data) / 1024`
kilobytes, represented exactly as a rational. -/
structure SynthResult where
  audio : Option (List Nat)
  fileSize : Option ℚ
  error : Option String
deriving DecidableEq

/-- Models `convert_text_to_speech(text, lang, slow, tld)` (lines 166-186).
`synth` is the gTTS oracle producing the audio byte stream; `Except.error e`
models any exception during synthesis, caught and converted to
`(None, None, str(e))`. -/
def convert_text_to_speech
    (synth : String → String → Bool → String → Except String (List Nat))
    (text lang : String) (slow : Bool) (tld : String) : SynthResult :=
  match synth text lang slow tld with
  | Except.ok audio_data => ⟨some audio_data, some ((audio_data.length : ℚ) / 1024), none⟩
  | Except.error e => ⟨none, none, some e⟩

/-- Models the validation truthiness test on line 297:
`not text_input or not text_input.strip()`, which holds exactly when the
text is empty or consists only of whitespace characters. -/
def isBlank (s : String) : Bool :=
  s.toList.all Char.isWhitespace

/-- Models the accent/tld resolution in the sidebar (lines 229-244): the
accent selector only exists when the output language is `"en"`; for every
other language `tld` is assigned the provider default `'com'`. -/
def resolveTld (lang_code selected_accent_tld : String) : String :=
  if lang_code = "en" then selected_accent_tld else "com"

/-- Models `len(translated_text.split())` (line 352): Python `str.split()`
with no argument splits on whitespace runs and drops empty pieces. -/
def word_count (s : String) : Nat :=
  ((s.split fun c => c.isWhitespace).filter fun w => !w.isEmpty).length

/-- Python truthiness of an optional string: `None` is falsy and so is the
empty string. This is the test performed by `if trans_error:` (line 314) and
`if error:` (line 336). -/
def pyTruthy : Option String → Bool
  | none => false
  | some s => s ≠ ""

/-- Models the call `convert_text_to_speech(translated_text, ...)` at
line 329 when `translated_text` may be Python `None` (which happens after a
translation failure whose message is falsy). Modelled from the gTTS
library: `gTTS.__init__` asserts the text is truthy
(`assert text, 'No text to speak'`) before any network activity, so a
`None` text always raises inside the `try` and yields that error triple. -/
def convert_text_to_speech_py
    (synth : String → String → Bool → String → Except String (List Nat))
    (text : Option String) (lang : String) (slow : Bool) (tld : String) :
    SynthResult :=
  match text with
  | some t => convert_text_to_speech synth t lang slow tld
  | none => ⟨none, none, some "No text to speak"⟩

/-- Observable outcome of one press of the convert button (lines 296-356).
`none` fields mean the corresponding display/stage never happened.
`synthText = none` with `synthInvoked = true` records that
`convert_text_to_speech` was called with Python `None` as the text.
`synthesisError` is the error component returned by the synthesis stage;
`crashed` records the corner where that error is present but falsy
(`some ""`), so `if error:` (line 336) enters the success display with
`audio_data = None` and the script dies with an unhandled exception at
`st.audio(None)`, displaying nothing. -/
structure Submission where
  validationError : Option String
  translatorInvoked : Bool
  translationWarning : Option String
  synthInvoked : Bool
  synthText : Option String
  synthLang : Option String
  synthSlow : Option Bool
  synthTld : Option String
  audio : Option (List Nat)
  sizeKB : Option ℚ
  durationSec : Option ℚ
  synthesisError : Option String
  crashed : Bool
deriving DecidableEq

/-- A submission stopped at validation with error message `msg`: no
translation, no synthesis, no outputs. -/
def blockedSubmission (msg : String) : Submission :=
  { validationError := some msg
    translatorInvoked := false
    translationWarning := none
    synthInvoked := false
    synthText := none
    synthLang := none
    synthSlow := none
    synthTld := none
    audio := none
    sizeKB := none
    durationSec := none
    synthesisError := none
    crashed := false }

/-- Step 1 of the handler (lines 302-325): when translation is enabled, call
`translate_text` and test the returned error with `if trans_error:`
(line 314) — a Python truthy check, false for `None` and for the empty
string. Only a truthy error takes the fallback: keep the original text and
show the error. Otherwise the success branch keeps the returned text
verbatim — including the `None` a falsy-message failure carries — with no
warning. Returns `(translated_text, warning)`, the text being an
`Option String` because Python's `translated_text` can be `None`. -/
def translationStep (d : Nat → String → Option String)
    (tr : String → String → String → Except String String)
    (text_input : String) (enable_translation : Bool)
    (source_lang lang_code : String) : Option String × Option String :=
  if enable_translation then
    let r := translate_text d tr text_input source_lang lang_code
    if pyTruthy r.error then (some text_input, r.error)
    else (r.text, none)
  else (some text_input, none)

/-- Step 2 of the handler (lines 327-356): call `convert_text_to_speech`
(possibly with a `None` text) and test the returned error with `if error:`
(line 336) — a truthy check. A truthy error shows the error message; a
falsy result enters the success display, which genuinely succeeds when the
error is `none` (real audio, file size, `word_count * 0.5` estimate) but,
when the error is the falsy-but-present `some ""` (so `audio_data` is
`None`), raises an unhandled exception at `st.audio(None)` and displays
nothing (`crashed`). In the success branch `translated_text` is necessarily
present, since a `None` text always produces a truthy error. -/
def synthesisStep
    (synth : String → String → Bool → String → Except String (List Nat))
    (translated_text : Option String) (lang_code : String)
    (slow_speech : Bool) (tld : String)
    (enable_translation : Bool) (warning : Option String) : Submission :=
  let s := convert_text_to_speech_py synth translated_text lang_code
    slow_speech tld
  if pyTruthy s.error then
    { validationError := none
      translatorInvoked := enable_translation
      translationWarning := warning
      synthInvoked := true
      synthText := translated_text
      synthLang := some lang_code
      synthSlow := some slow_speech
      synthTld := some tld
      audio := none
      sizeKB := none
      durationSec := none
      synthesisError := s.error
      crashed := false }
  else if s.error = some "" then
    { validationError := none
      translatorInvoked := enable_translation
      translationWarning := warning
      synthInvoked := true
      synthText := translated_text
      synthLang := some lang_code
      synthSlow := some slow_speech
      synthTld := some tld
      audio := none
      sizeKB := none
      durationSec := none
      synthesisError := s.error
      crashed := true }
  else
    { validationError := none
      translatorInvoked := enable_translation
      translationWarning := warning
      synthInvoked := true
      synthText := translated_text
      synthLang := some lang_code
      synthSlow := some slow_speech
      synthTld := some tld
      audio := s.audio
      sizeKB := s.fileSize
      durationSec := some ((word_count (translated_text.getD "") : ℚ) * (1 / 2))
      synthesisError := s.error
      crashed := false }

/-- Models the `if convert_button:` handler (lines 296-356): validation
(empty check first, then the 5000-character bound), then the optional
translation step with fallback to the original text on a translation error,
then the synthesis call with the displayed metrics on success. -/
def convert_button_handler (d : Nat → String → Option String)
    (tr : String → String → String → Except String String)
    (synth : String → String → Bool → String → Except String (List Nat))
    (text_input : String) (enable_translation : Bool)
    (source_lang lang_code : String) (slow_speech : Bool) (tld : String) :
    Submission :=
  if isBlank text_input then
    blockedSubmission "Please enter some text to convert!"
  else if text_input.length > 5000 then
    blockedSubmission "Text is too long. Please reduce to 5000 characters or less."
  else
    let step1 := translationStep d tr text_input enable_translation
      source_lang lang_code
    synthesisStep synth step1.1 lang_code slow_speech tld enable_translation
      step1.2

/-- Detector oracle that always fails (models `detect` raising). -/
def dNone : Nat → String → Option String := fun _ _ => none

/-- Detector oracle that always detects French. -/
def dFr : Nat → String → Option String := fun _ _ => some "fr"

/-- Translator oracle that always raises (simulated provider error). -/
def trFail : String → String → String → Except String String :=
  fun _ _ _ => Except.error "simulated provider error"

/-- Translator oracle that always raises with an exception whose string
representation is empty (e.g. `raise Exception()`), so `str(e) = ""`. -/
def trEmptyFail : String → String → String → Except String String :=
  fun _ _ _ => Except.error ""

/-- Translator oracle that always succeeds with a fixed output. -/
def trOk : String → String → String → Except String String :=
  fun _ _ _ => Except.ok "translated"

/-- Synthesizer oracle returning a fixed four-byte audio stream. -/
def synthOk : String → String → Bool → String → Except String (List Nat) :=
  fun _ _ _ _ => Except.ok [7, 7, 7, 7]

/-- Synthesizer oracle that always raises (network unavailable). -/
def synthFail : String → String → Bool → String → Except String (List Nat) :=
  fun _ _ _ _ => Except.error "Failed to connect"

/-- Helper: whatever the synthesizer oracle does, the synthesis step always
reports the same stage-identity fields: validation passed, synthesis was
invoked with exactly the given text, language and tld, and the translation
warning is passed through. -/
theorem synthesisStep_common
    (synth : String → String → Bool → String → Except String (List Nat))
    (t : Option String) (l : String) (sl : Bool) (td : String) (en : Bool)
    (w : Option String) :
    (synthesisStep synth t l sl td en w).validationError = none
    ∧ (synthesisStep synth t l sl td en w).synthInvoked = true
    ∧ (synthesisStep synth t l sl td en w).synthText = t
    ∧ (synthesisStep synth t l sl td en w).synthLang = some l
    ∧ (synthesisStep synth t l sl td en w).synthTld = some td
    ∧ (synthesisStep synth t l sl td en w).translationWarning = w := by
  unfold synthesisStep
  by_cases h1 : pyTruthy (convert_text_to_speech_py synth t l sl td).error = true
  · simp [h1]
  · by_cases h2 : (convert_text_to_speech_py synth t l sl td).error = some ""
    · simp [h1, h2, pyTruthy]
    · simp [h1, h2]

/-- Helper: when `translate_text` reports an error with a non-empty (hence
truthy) message, the translation step falls back to the original text and
records the error as the warning. -/
theorem translationStep_error
    (d : Nat → String → Option String)
    (tr : String → String → String → Except String String)
    (text source_lang lang_code e : String)
    (h : (translate_text d tr text source_lang lang_code).error = some e)
    (hne : e ≠ "") :
    translationStep d tr text true source_lang lang_code =
      (some text, some e) := by
  unfold translationStep
  rw [if_pos rfl]
  simp only [h]
  rw [if_pos (by simp [pyTruthy, hne])]

/-- Claim C3: whenever the resolved source language (after any
auto-detection) equals the target language, `translate_text` returns the
original text unchanged together with that language code and no error, and
the external translation provider is not called. -/
theorem translate_same_language_shortcircuit
    (d : Nat → String → Option String)
    (tr : String → String → String → Except String String)
    (text source_lang target_lang : String)
    (h : resolveSource d text source_lang = target_lang) :
    translate_text d tr text source_lang target_lang =
      ⟨some text, some target_lang, none, false, none⟩ := by
  unfold translate_text
  rw [h, if_pos rfl]

/-- Claim C3 witness: explicit source `"en"` with target `"en"` resolves to
the same language, so translation short-circuits. -/
theorem translate_same_language_shortcircuit_witness :
    translate_text dFr trFail "Hello" "en" "en" =
      ⟨some "Hello", some "en", none, false, none⟩ :=
  translate_same_language_shortcircuit dFr trFail "Hello" "en" "en" (by decide)

/-- Claim C4: with the sentinel `"auto"` selected, resolution runs detection
and uses the detected code; if detection raises (oracle `none`) or yields
nothing truthy, the result is `"en"`; and — given that the detection library
never reports the sentinel itself — the resolved code is never `"auto"`. -/
theorem resolve_auto_never_sentinel
    (d : Nat → String → Option String) (text : String)
    (hd : ∀ l, d DetectorFactory_seed text = some l → l ≠ "auto") :
    (d DetectorFactory_seed text = none → resolveSource d text "auto" = "en")
    ∧ (∀ l, d DetectorFactory_seed text = some l → l ≠ "" →
        resolveSource d text "auto" = l)
    ∧ resolveSource d text "auto" ≠ "auto" := by
  unfold resolveSource detect_language
  cases h : d DetectorFactory_seed text with
  | none => exact ⟨fun _ => rfl, fun l hl => absurd hl (by simp), by decide⟩
  | some l =>
    refine ⟨fun hn => absurd hn (by simp), ?_, ?_⟩
    · intro m hm hne
      cases Option.some.inj hm
      simp [hne]
    · by_cases he : l = ""
      · simp [he]
      · simp only [if_pos rfl, he, if_neg he]
        exact hd l h

/-- Claim C4 witness: a detector that always raises makes resolution fall
back to `"en"`, which is not the sentinel. -/
theorem resolve_auto_never_sentinel_witness :
    (dNone DetectorFactory_seed "Bonjour" = none →
      resolveSource dNone "Bonjour" "auto" = "en")
    ∧ (∀ l, dNone DetectorFactory_seed "Bonjour" = some l → l ≠ "" →
        resolveSource dNone "Bonjour" "auto" = l)
    ∧ resolveSource dNone "Bonjour" "auto" ≠ "auto" :=
  resolve_auto_never_sentinel dNone "Bonjour"
    (fun _ hl => Option.noConfusion hl)

/-- Claim C5: the target-code rewrite before the provider call is the fixed
exception table `"zh-cn" ↦ "zh-CN"`, `"zh-tw" ↦ "zh-TW"`; every other code
passes through unmodified; and whenever `translate_text` does call the
provider, the target argument it passes is exactly the normalized code. -/
theorem target_normalization_table :
    normalizeTarget "zh-cn" = "zh-CN"
    ∧ normalizeTarget "zh-tw" = "zh-TW"
    ∧ (∀ t, t ≠ "zh-cn" → t ≠ "zh-tw" → normalizeTarget t = t)
    ∧ (∀ d tr text source_lang target_lang,
        (translate_text d tr text source_lang target_lang).providerCalled = true →
        (translate_text d tr text source_lang target_lang).providerArgs =
          some (resolveSource d text source_lang, normalizeTarget target_lang,
            text)) := by
  refine ⟨by decide, by decide, fun t h1 h2 => by simp [normalizeTarget, h1, h2], ?_⟩
  intro d tr text source_lang target_lang hcall
  unfold translate_text at hcall ⊢
  by_cases h : resolveSource d text source_lang = target_lang
  · simp [h] at hcall
  · simp only [h, if_neg h] at hcall ⊢
    cases tr (resolveSource d text source_lang) (normalizeTarget target_lang) text <;> rfl

/-- Claim C5 witness: `"fr"` is not in the exception table, so it passes
through unmodified. -/
theorem target_normalization_table_witness :
    normalizeTarget "fr" = "fr" :=
  target_normalization_table.2.2.1 "fr" (by decide) (by decide)

/-- Claim C8: neither stage raises past its boundary; each returns either a
success triple whose error field is `none` with the value fields present, or
a failure triple carrying only the error string with the value fields
`none` — exactly one side is ever meaningful. -/
theorem stage_results_exclusive :
    (∀ d tr text source_lang target_lang,
      let r := translate_text d tr text source_lang target_lang
      (r.error = none ∧ r.text.isSome ∧ r.lang.isSome)
      ∨ (r.error.isSome ∧ r.text = none ∧ r.lang = none))
    ∧ (∀ synth text lang slow tld,
      let s := convert_text_to_speech synth text lang slow tld
      (s.error = none ∧ s.audio.isSome ∧ s.fileSize.isSome)
      ∨ (s.error.isSome ∧ s.audio = none ∧ s.fileSize = none)) := by
  constructor
  · intro d tr text source_lang target_lang
    unfold translate_text
    by_cases h : resolveSource d text source_lang = target_lang
    · simp [h]
    · simp only [h, if_neg h]
      cases tr (resolveSource d text source_lang) (normalizeTarget target_lang) text <;> simp
  · intro synth text lang slow tld
    unfold convert_text_to_speech
    cases synth text lang slow tld <;> simp

/-- Claim C9: the detection seed is pinned to the fixed value `0` at module
load, and detection is a deterministic function of the pinned seed and the
input text: two calls on identical input yield identical detected codes. -/
theorem detection_deterministic
    (d : Nat → String → Option String) (t1 t2 : String) (h : t1 = t2) :
    detect_language d t1 = detect_language d t2 ∧ DetectorFactory_seed = 0 :=
  ⟨by rw [h], rfl⟩

/-- Claim C9 witness: two calls on the same literal agree. -/
theorem detection_deterministic_witness :
    detect_language dFr "Bonjour" = detect_language dFr "Bonjour"
    ∧ DetectorFactory_seed = 0 :=
  detection_deterministic dFr "Bonjour" "Bonjour" rfl

/-- Claim C2: a submission whose text is empty or whitespace-only, or longer
than 5000 characters, terminates at validation with an error; the translator
and the synthesizer are both not invoked (this holds for arbitrary oracles,
so no network call can be observed). -/
theorem validation_blocks_pipeline
    (d : Nat → String → Option String)
    (tr : String → String → String → Except String String)
    (synth : String → String → Bool → String → Except String (List Nat))
    (text_input : String) (enable_translation : Bool)
    (source_lang lang_code : String) (slow_speech : Bool) (tld : String)
    (h : isBlank text_input = true ∨ text_input.length > 5000) :
    (convert_button_handler d tr synth text_input enable_translation
        source_lang lang_code slow_speech tld).validationError.isSome = true
    ∧ (convert_button_handler d tr synth text_input enable_translation
        source_lang lang_code slow_speech tld).translatorInvoked = false
    ∧ (convert_button_handler d tr synth text_input enable_translation
        source_lang lang_code slow_speech tld).synthInvoked = false := by
  unfold convert_button_handler
  by_cases hb : isBlank text_input = true
  · simp only [hb, if_pos rfl, if_true]
    exact ⟨rfl, rfl, rfl⟩
  · rcases h with h | h
    · exact absurd h hb
    · simp only [hb, Bool.false_eq_true, if_false, if_pos h]
      exact ⟨rfl, rfl, rfl⟩

/-- Claim C2 witness: whitespace-only input is blocked at validation. -/
theorem validation_blocks_pipeline_witness :
    (convert_button_handler dFr trOk synthOk "   " true "auto" "fr" false
        "com").validationError.isSome = true
    ∧ (convert_button_handler dFr trOk synthOk "   " true "auto" "fr" false
        "com").translatorInvoked = false
    ∧ (convert_button_handler dFr trOk synthOk "   " true "auto" "fr" false
        "com").synthInvoked = false :=
  validation_blocks_pipeline dFr trOk synthOk "   " true "auto" "fr" false
    "com" (Or.inl (by decide))

/-- Claim C10: validation checks emptiness before length: an input that is
both whitespace-only and longer than 5000 characters fails with the
empty-text error message, never the length-bound one. -/
theorem empty_check_precedes_length
    (d : Nat → String → Option String)
    (tr : String → String → String → Except String String)
    (synth : String → String → Bool → String → Except String (List Nat))
    (text_input : String) (enable_translation : Bool)
    (source_lang lang_code : String) (slow_speech : Bool) (tld : String)
    (h1 : isBlank text_input = true) (_h2 : text_input.length > 5000) :
    (convert_button_handler d tr synth text_input enable_translation
        source_lang lang_code slow_speech tld).validationError =
      some "Please enter some text to convert!"
    ∧ (convert_button_handler d tr synth text_input enable_translation
        source_lang lang_code slow_speech tld).validationError ≠
      some "Text is too long. Please reduce to 5000 characters or less." := by
  unfold convert_button_handler
  simp only [h1, if_pos rfl, if_true]
  exact ⟨rfl, by simp [blockedSubmission]⟩

/-- Claim C10 witness: 5001 spaces are both whitespace-only and over the
length bound; the empty-text error is the one reported. -/
theorem empty_check_precedes_length_witness :
    (convert_button_handler dFr trOk synthOk
        (String.mk (List.replicate 5001 ' ')) true "auto" "fr" false
        "com").validationError =
      some "Please enter some text to convert!"
    ∧ (convert_button_handler dFr trOk synthOk
        (String.mk (List.replicate 5001 ' ')) true "auto" "fr" false
        "com").validationError ≠
      some "Text is too long. Please reduce to 5000 characters or less." :=
  empty_check_precedes_length dFr trOk synthOk
    (String.mk (List.replicate 5001 ' ')) true "auto" "fr" false "com"
    (by
      show (List.replicate 5001 ' ').all Char.isWhitespace = true
      rw [List.all_eq_true]
      intro c hc
      rw [List.eq_of_mem_replicate hc]
      decide)
    (by
      show (String.mk (List.replicate 5001 ' ')).length > 5000
      rw [show (String.mk (List.replicate 5001 ' ')).length =
          (List.replicate 5001 ' ').length from rfl,
        List.length_replicate]
      omega)

/-- Claim C1 counterexample: the claim as stated fails when the provider
error's string representation is empty. `translate_text` reports the error
`some ""`, yet the handler's truthy check `if trans_error:` takes the
success branch: the synthesizer does not receive the original text
`"Bonjour"` (it receives the translator's `None` result) and no warning is
surfaced. -/
theorem translation_error_fallback_counterexample :
    (translate_text dFr trEmptyFail "Bonjour" "auto" "en").error = some ""
    ∧ (convert_button_handler dFr trEmptyFail synthOk "Bonjour" true "auto"
        "en" false "com").synthText = none
    ∧ (convert_button_handler dFr trEmptyFail synthOk "Bonjour" true "auto"
        "en" false "com").translationWarning = none := by
  refine ⟨by decide, by decide, by decide⟩

/-- Claim C1 (amended): with translation enabled, a translation error whose
message is non-empty (hence truthy for `if trans_error:`) does not abort the
submission: validation stands, the synthesizer is still invoked with the
original (untranslated) input text and the caller-selected target language,
and the translation error is surfaced as the (non-fatal) warning. -/
theorem translation_error_fallback
    (d : Nat → String → Option String)
    (tr : String → String → String → Except String String)
    (synth : String → String → Bool → String → Except String (List Nat))
    (text_input source_lang lang_code tld : String) (slow_speech : Bool)
    (e : String)
    (h1 : isBlank text_input = false) (h2 : text_input.length ≤ 5000)
    (h3 : (translate_text d tr text_input source_lang lang_code).error =
      some e)
    (he : e ≠ "") :
    (convert_button_handler d tr synth text_input true source_lang lang_code
        slow_speech tld).validationError = none
    ∧ (convert_button_handler d tr synth text_input true source_lang
        lang_code slow_speech tld).synthInvoked = true
    ∧ (convert_button_handler d tr synth text_input true source_lang
        lang_code slow_speech tld).synthText = some text_input
    ∧ (convert_button_handler d tr synth text_input true source_lang
        lang_code slow_speech tld).synthLang = some lang_code
    ∧ (convert_button_handler d tr synth text_input true source_lang
        lang_code slow_speech tld).translationWarning = some e := by
  unfold convert_button_handler
  rw [if_neg (by simp [h1]), if_neg (by omega)]
  simp only [translationStep_error d tr text_input source_lang lang_code e h3
    he]
  have hc := synthesisStep_common synth (some text_input) lang_code
    slow_speech tld true (some e)
  exact ⟨hc.1, hc.2.1, hc.2.2.1, hc.2.2.2.1, hc.2.2.2.2.2⟩

/-- Claim C1 witness: the detector says French, the target is English, and
the provider is forced to fail with a non-empty message; the synthesizer
still receives the original text `"Bonjour"` with the target language
`"en"`. -/
theorem translation_error_fallback_witness :
    (convert_button_handler dFr trFail synthOk "Bonjour" true "auto" "en"
        false "com").validationError = none
    ∧ (convert_button_handler dFr trFail synthOk "Bonjour" true "auto" "en"
        false "com").synthInvoked = true
    ∧ (convert_button_handler dFr trFail synthOk "Bonjour" true "auto" "en"
        false "com").synthText = some "Bonjour"
    ∧ (convert_button_handler dFr trFail synthOk "Bonjour" true "auto" "en"
        false "com").synthLang = some "en"
    ∧ (convert_button_handler dFr trFail synthOk "Bonjour" true "auto" "en"
        false "com").translationWarning = some "simulated provider error" :=
  translation_error_fallback dFr trFail synthOk "Bonjour" "auto" "en" "com"
    false "simulated provider error" (by decide) (by decide) (by decide)
    (by decide)

/-- Claim C6: when the output language code is not `"en"`, the tld the
sidebar resolves — and hence the voice-variant token handed to the
synthesizer — is the provider default `"com"` no matter which accent was
selected while some other language was chosen; a non-default variant can
only arise for `"en"`. -/
theorem non_english_default_tld
    (d : Nat → String → Option String)
    (tr : String → String → String → Except String String)
    (synth : String → String → Bool → String → Except String (List Nat))
    (text_input : String) (enable_translation : Bool)
    (source_lang lang_code accent_tld : String) (slow_speech : Bool)
    (h : lang_code ≠ "en")
    (h1 : isBlank text_input = false) (h2 : text_input.length ≤ 5000) :
    (convert_button_handler d tr synth text_input enable_translation
        source_lang lang_code slow_speech
        (resolveTld lang_code accent_tld)).synthTld = some "com"
    ∧ (∀ a, resolveTld lang_code a = "com") := by
  have ht : ∀ a, resolveTld lang_code a = "com" := fun a => by
    simp [resolveTld, h]
  refine ⟨?_, ht⟩
  rw [ht]
  unfold convert_button_handler
  rw [if_neg (by simp [h1]), if_neg (by omega)]
  exact (synthesisStep_common synth _ lang_code slow_speech "com"
    enable_translation _).2.2.2.2.1

/-- Claim C6 witness: output language `"fr"` with a stale UK-English accent
selection still sends tld `"com"` to the synthesizer. -/
theorem non_english_default_tld_witness :
    (convert_button_handler dFr trOk synthOk "Hello" false "auto" "fr" false
        (resolveTld "fr" "co.uk")).synthTld = some "com"
    ∧ (∀ a, resolveTld "fr" a = "com") :=
  non_english_default_tld dFr trOk synthOk "Hello" false "auto" "fr" "co.uk"
    false (by decide) (by decide) (by decide)

/-- Claim C7: on a successful synthesis the reported size is exactly
`len(audioBytes) / 1024` kilobytes and the reported duration estimate is
exactly `0.5` seconds per whitespace-separated word of the final synthesized
text — computed from that text, not from the audio bytes. -/
theorem success_metrics_exact
    (d : Nat → String → Option String)
    (tr : String → String → String → Except String String)
    (synth : String → String → Bool → String → Except String (List Nat))
    (text_input : String) (enable_translation : Bool)
    (source_lang lang_code : String) (slow_speech : Bool) (tld : String)
    (hv : (convert_button_handler d tr synth text_input enable_translation
        source_lang lang_code slow_speech tld).validationError = none)
    (hs : (convert_button_handler d tr synth text_input enable_translation
        source_lang lang_code slow_speech tld).synthesisError = none) :
    ∃ ft bytes,
      (convert_button_handler d tr synth text_input enable_translation
        source_lang lang_code slow_speech tld).synthText = some ft
      ∧ (convert_button_handler d tr synth text_input enable_translation
        source_lang lang_code slow_speech tld).audio = some bytes
      ∧ (convert_button_handler d tr synth text_input enable_translation
        source_lang lang_code slow_speech tld).sizeKB =
          some ((bytes.length : ℚ) / 1024)
      ∧ (convert_button_handler d tr synth text_input enable_translation
        source_lang lang_code slow_speech tld).durationSec =
          some ((word_count ft : ℚ) * (1 / 2)) := by
  unfold convert_button_handler at hv hs ⊢
  by_cases hb : isBlank text_input = true
  · rw [if_pos hb] at hv
    exact absurd hv (by simp [blockedSubmission])
  · rw [if_neg hb] at hv hs ⊢
    by_cases hl : text_input.length > 5000
    · rw [if_pos hl] at hv
      exact absurd hv (by simp [blockedSubmission])
    · simp only [if_neg hl] at hs ⊢
      cases ht : (translationStep d tr text_input enable_translation
          source_lang lang_code).1 with
      | none =>
        rw [ht] at hs
        simp [synthesisStep, convert_text_to_speech_py, pyTruthy] at hs
      | some t =>
        refine ⟨t, ?_⟩
        cases hsy : synth t lang_code slow_speech tld with
        | error e =>
          by_cases hee : e = ""
          · subst hee
            simp [synthesisStep, convert_text_to_speech_py,
              convert_text_to_speech, ht, hsy, pyTruthy] at hs
          · simp [synthesisStep, convert_text_to_speech_py,
              convert_text_to_speech, ht, hsy, pyTruthy, hee] at hs
        | ok bytes =>
          refine ⟨bytes, ?_⟩
          simp [synthesisStep, convert_text_to_speech_py,
            convert_text_to_speech, ht, hsy, pyTruthy]

/-- Claim C7 witness: translation disabled, `"Hello world"` synthesized to a
four-byte stream; size is `4/1024` KB and the estimate is `2 × 0.5 = 1`
second. -/
theorem success_metrics_exact_witness :
    ∃ ft bytes,
      (convert_button_handler dFr trOk synthOk "Hello world" false "auto"
        "en" false "com").synthText = some ft
      ∧ (convert_button_handler dFr trOk synthOk "Hello world" false "auto"
        "en" false "com").audio = some bytes
      ∧ (convert_button_handler dFr trOk synthOk "Hello world" false "auto"
        "en" false "com").sizeKB = some ((bytes.length : ℚ) / 1024)
      ∧ (convert_button_handler dFr trOk synthOk "Hello world" false "auto"
        "en" false "com").durationSec = some ((word_count ft : ℚ) * (1 / 2)) :=
  success_metrics_exact dFr trOk synthOk "Hello world" false "auto" "en"
    false "com" (by decide) (by decide)

end TTS
